import Mathlib

/-!
Shallow embedding of the two-pass invoice extraction and reconciliation engine
of process_invoice.py (class InvoiceProcessor), together with theorems about
its behaviour.

Modelling conventions:
* a text line is a Lean String (a list of unicode characters, as in Python 3);
  OCR lines contain no newline characters;
* Python floats holding two-decimal currency amounts are modelled as rationals;
  round(x, 2) is modelled as round-half-to-even at two decimals on rationals;
* each regular expression of the source is compiled by hand into a scanner:
  re.search tries an anchored match at every position from the left and
  returns the first success, which is what reSearch below implements.
-/

namespace InvoiceProc

/-- Python regex class \s and str.strip(): whitespace characters
(the ones that can occur in OCR text lines). -/
def isPySpace (c : Char) : Bool :=
  c = ' ' || c = '\t' || c = '\n' || c = '\r' ||
  c = '\x0B' || c = '\x0C' || c = ' ' || c = '　'

/-- Numeric value of a run of decimal digit characters (int("...")). -/
def natOfDigits (ds : List Char) : Nat :=
  ds.foldl (fun a c => 10 * a + (c.toNat - 48)) 0

/-- Python substring test: pat in text (on character lists). -/
def hasSubChars : List Char → List Char → Bool
  | [], pat => pat.isEmpty
  | c :: rest, pat => pat.isPrefixOf (c :: rest) || hasSubChars rest pat

/-- Python substring test: pat in text. -/
def hasSub (text pat : String) : Bool :=
  hasSubChars text.data pat.data

/-- re.search: try the anchored matcher m at every position from the left,
return the first success. -/
def reSearch {α : Type} (m : List Char → Option α) : List Char → Option α
  | [] => m []
  | c :: rest =>
    match m (c :: rest) with
    | some v => some v
    | none => reSearch m rest

/-- Anchored match for the colon patterns of process_line, with a
matched-group character class cls (e.g. r'[:：]\s*(\d+)' with cls = isDigit):
a half- or full-width colon, then \s*, then a nonempty cls-run as the group. -/
def matchColonRunAt (cls : Char → Bool) : List Char → Option (List Char)
  | [] => none
  | c :: rest =>
    if c = ':' || c = '：' then
      let g := (rest.dropWhile isPySpace).takeWhile cls
      if g.isEmpty then none else some g
    else none

/-- re.search(r'[:：]\s*(\d+)', text): digits after the nearest usable colon. -/
def colonDigits (cs : List Char) : Option (List Char) :=
  reSearch (matchColonRunAt Char.isDigit) cs

/-- Character class [0-9A-Z] of the tax-id pattern. -/
def isDigitOrUpper (c : Char) : Bool :=
  c.isDigit || ('A' ≤ c && c ≤ 'Z')

/-- re.search(r'[:：]\s*([0-9A-Z]+)', text). -/
def colonTaxId (cs : List Char) : Option (List Char) :=
  reSearch (matchColonRunAt isDigitOrUpper) cs

/-- Anchored match for r'[:：]\s*(.+)': after the colon, the greedy \s* skips
whitespace, then (.+) takes the rest of the line; if only whitespace follows
the colon, \s* backtracks one character so that (.+) captures a single
whitespace character. -/
def matchColonNameAt : List Char → Option (List Char)
  | [] => none
  | c :: rest =>
    if c = ':' || c = '：' then
      if rest.isEmpty then none
      else
        let g := rest.dropWhile isPySpace
        if g.isEmpty then
          match rest.reverse with
          | lastc :: _ => some [lastc]
          | [] => none
        else some g
    else none

/-- re.search(r'[:：]\s*(.+)', text). -/
def colonName (cs : List Char) : Option (List Char) :=
  reSearch matchColonNameAt cs

/-- Anchored match for r'[:：]\s*([0-9\s]+)' (check-code pattern); since \s is
contained in the group class, the greedy \s* plus backtracking make the total
consumed region the maximal [0-9\s]-run after the colon; the group is that run
minus the \s*-consumed whitespace prefix (one trailing character is kept when
the run is all whitespace). -/
def matchColonCheckAt : List Char → Option (List Char)
  | [] => none
  | c :: rest =>
    if c = ':' || c = '：' then
      let p := rest.takeWhile (fun d => d.isDigit || isPySpace d)
      let w := p.takeWhile isPySpace
      if w.length = p.length then
        match p.reverse with
        | lastc :: _ => some [lastc]
        | [] => none
      else some (p.drop w.length)
    else none

/-- re.search(r'[:：]\s*([0-9\s]+)', text). -/
def colonCheck (cs : List Char) : Option (List Char) :=
  reSearch matchColonCheckAt cs

/-- str.strip(): remove leading and trailing whitespace. -/
def stripWS (l : List Char) : List Char :=
  ((l.dropWhile isPySpace).reverse.dropWhile isPySpace).reverse

/-- Anchored match for r'(\d+)%': a nonempty greedy digit run immediately
followed by a percent sign; the group value as a natural number. -/
def matchPercentAt (cs : List Char) : Option Nat :=
  let run := cs.takeWhile Char.isDigit
  if run.isEmpty then none
  else if (cs.drop run.length).head? = some '%' then some (natOfDigits run)
  else none

/-- re.search(r'(\d+)%', text), returning the matched number. -/
def searchPercent (cs : List Char) : Option Nat :=
  reSearch matchPercentAt cs

/-- extract_tax_rate (source lines 94-100): float(match.group(1)) / 100. -/
def extract_tax_rate (text : String) : Option ℚ :=
  (searchPercent text.data).map (fun n => (n : ℚ) / 100)

/-- Anchored match for r'(\d+\.\d{2})': greedy digit run, a dot, then two
digits; returns (integer part, two-decimal cents part). -/
def matchAmountAt (cs : List Char) : Option (Nat × Nat) :=
  let ip := cs.takeWhile Char.isDigit
  if ip.isEmpty then none
  else
    match cs.drop ip.length with
    | '.' :: d1 :: d2 :: _ =>
      if d1.isDigit && d2.isDigit then
        some (natOfDigits ip, natOfDigits [d1, d2])
      else none
    | _ => none

/-- extract_amount (source lines 80-92): strip every character that is not a
digit or a dot, then re.search(r'(\d+\.\d{2})') and float() the group. -/
def extract_amount (text : String) : Option ℚ :=
  (reSearch matchAmountAt (text.data.filter (fun c => c.isDigit || c = '.'))).map
    (fun p => (p.1 : ℚ) + (p.2 : ℚ) / 100)

/-- Number of days of a month, with the Gregorian leap rule
(datetime validity). -/
def daysInMonth (y m : Nat) : Nat :=
  if m = 2 then
    if y % 4 = 0 && (y % 100 ≠ 0 || y % 400 = 0) then 29 else 28
  else if m = 4 || m = 6 || m = 9 || m = 11 then 30
  else 31

/-- datetime(year, month, day) succeeds (datetime.MINYEAR = 1,
datetime.MAXYEAR = 9999). -/
def validDate (y m d : Nat) : Bool :=
  1 ≤ y && y ≤ 9999 && 1 ≤ m && m ≤ 12 && 1 ≤ d && d ≤ daysInMonth y m

/-- Zero-padded decimal rendering with at least w digits (strftime). -/
def padNat (w n : Nat) : String :=
  let s := toString n
  if s.length < w then String.mk (List.replicate (w - s.length) '0') ++ s else s

/-- Day part of the date pattern: \d{1,2} (greedy) followed by the optional
日 marker (which constrains nothing). -/
def matchDayAt (y m : Nat) : List Char → Option (Nat × Nat × Nat)
  | d1 :: d2 :: _ =>
    if d1.isDigit && d2.isDigit then some (y, m, natOfDigits [d1, d2])
    else if d1.isDigit then some (y, m, natOfDigits [d1])
    else none
  | [d1] => if d1.isDigit then some (y, m, natOfDigits [d1]) else none
  | [] => none

/-- Anchored match for r'(\d{4})年(\d{1,2})月(\d{1,2})日?': exactly four digits,
the 年 marker, one or two digits (greedy), 月, one or two digits (greedy),
optional 日. -/
def matchDateAt : List Char → Option (Nat × Nat × Nat)
  | a :: b :: c :: d :: '年' :: r1 =>
    if a.isDigit && b.isDigit && c.isDigit && d.isDigit then
      let y := natOfDigits [a, b, c, d]
      match r1 with
      | m1 :: m2 :: '月' :: r2 =>
        if m1.isDigit && m2.isDigit then
          matchDayAt y (natOfDigits [m1, m2]) r2
        else none
      | m1 :: '月' :: r2 =>
        if m1.isDigit then matchDayAt y (natOfDigits [m1]) r2 else none
      | _ => none
    else none
  | _ => none

/-- extract_date (source lines 68-78): first regex match, then datetime
validation; an invalid calendar date yields None directly (the search is not
resumed). The result is rendered as YYYY-MM-DD. -/
def extract_date (text : String) : Option String :=
  match reSearch matchDateAt text.data with
  | some (y, m, d) =>
    if validDate y m d then some (padNat 4 y ++ "-" ++ padNat 2 m ++ "-" ++ padNat 2 d)
    else none
  | none => none

/-! ## Data model

The accumulator self.current_invoice is a dict with fixed Chinese keys
(source lines 21-34); it is modelled as a structure whose field names
translate the keys:
path = 路径, buyer = 购买方, buyerTaxId = 购买方纳税人识别号, seller = 销售方,
sellerTaxId = 销售方纳税人识别号, invoiceCode = 发票代码, invoiceNo = 发票号,
checkCode = 校验码, date = 日期, totalAmount = 总金额, salesAmount = 销售金额,
taxRate = 税率. -/

@[ext] structure Invoice where
  path : Option String
  buyer : Option String
  buyerTaxId : Option String
  seller : Option String
  sellerTaxId : Option String
  invoiceCode : Option String
  invoiceNo : Option String
  checkCode : Option String
  date : Option String
  totalAmount : Option ℚ
  salesAmount : Option ℚ
  taxRate : Option ℚ
deriving DecidableEq

/-- The all-None accumulator ({key: None for key in ...}). -/
def emptyInvoice : Invoice :=
  ⟨none, none, none, none, none, none, none, none, none, none, none, none⟩

/-- The recovery engine's instance-level caches (source lines 65-66 and the
attributes set at lines 256-258): _cached_tax_rate, _cached_amounts, the
_found_match flag, and _cached_sales_amount / _cached_total_amount.  The two
amount attributes exist only after _found_match has been set at least once;
they are modelled with default value 0, and are only ever read under the
found_match flag. -/
structure Caches where
  tax_rate : Option ℚ
  amounts : Option (List ℚ)
  found_match : Bool
  cached_sales : ℚ
  cached_total : ℚ
deriving DecidableEq

/-- Processor state: current accumulator, the speculatively retained record
list self.invoices, the failed-file list self.failed_files (set semantics),
and the recovery caches. -/
structure PState where
  current : Invoice
  invoices : List Invoice
  failed_files : List String
  caches : Caches
deriving DecidableEq

def initCaches : Caches := ⟨none, none, false, 0, 0⟩

/-- The state of a freshly constructed InvoiceProcessor. -/
def initState : PState := ⟨emptyInvoice, [], [], initCaches⟩

/-- Python truthiness of an optional string (None and "" are falsy). -/
def pyTruthyStr : Option String → Bool
  | none => false
  | some s => !s.isEmpty

/-! ## Pass 1: process_line (source lines 102-170), one updater per field -/

/-- Invoice-number rule (lines 110-115): label 发票号码, pattern [:：]\s*(\d+),
overwrite unconditionally. -/
def upd_invoice_number (text : String) (inv : Invoice) : Invoice :=
  if hasSub text "发票号码" then
    match colonDigits text.data with
    | some ds => { inv with invoiceNo := some (String.mk ds) }
    | none => inv
  else inv

/-- Check-code rule (lines 117-122): label 校验码, pattern [:：]\s*([0-9\s]+),
ASCII spaces removed from the group. -/
def upd_check_code (text : String) (inv : Invoice) : Invoice :=
  if hasSub text "校验码" then
    match colonCheck text.data with
    | some g => { inv with checkCode := some (String.mk (g.filter (fun c => c ≠ ' '))) }
    | none => inv
  else inv

/-- Buyer rule (lines 124-129): both 购 and 名称 present, pattern [:：]\s*(.+),
group stripped. -/
def upd_buyer (text : String) (inv : Invoice) : Invoice :=
  if hasSub text "购" && hasSub text "名称" then
    match colonName text.data with
    | some g => { inv with buyer := some (String.mk (stripWS g)) }
    | none => inv
  else inv

/-- Seller rule (lines 131-136): both 销 and 名称 present. -/
def upd_seller (text : String) (inv : Invoice) : Invoice :=
  if hasSub text "销" && hasSub text "名称" then
    match colonName text.data with
    | some g => { inv with seller := some (String.mk (stripWS g)) }
    | none => inv
  else inv

/-- Tax-id rule (lines 138-146): label 纳税人识别号 or 统一社会信用代码; the
buyer slot is filled while falsy, afterwards the seller slot. -/
def upd_tax_id (text : String) (inv : Invoice) : Invoice :=
  if hasSub text "纳税人识别号" || hasSub text "统一社会信用代码" then
    match colonTaxId text.data with
    | some g =>
      if pyTruthyStr inv.buyerTaxId then
        { inv with sellerTaxId := some (String.mk g) }
      else
        { inv with buyerTaxId := some (String.mk g) }
    | none => inv
  else inv

/-- Date rule (lines 148-152): label 开票日期, extract_date. -/
def upd_date (text : String) (inv : Invoice) : Invoice :=
  if hasSub text "开票日期" then
    match extract_date text with
    | some d => { inv with date := some d }
    | none => inv
  else inv

/-- Total-amount rule (lines 154-158): any of the keywords
价税合计 / 小写 / ￥ / ¥ / *; the amount must be truthy (nonzero) and either
the field is unset or the new amount is strictly larger (monotonic max). -/
def upd_total_amount (text : String) (inv : Invoice) : Invoice :=
  if hasSub text "价税合计" || hasSub text "小写" || hasSub text "￥" ||
     hasSub text "¥" || hasSub text "*" then
    match extract_amount text with
    | some a =>
      if decide (a ≠ 0) && (match inv.totalAmount with
                            | none => true
                            | some c => decide (c < a)) then
        { inv with totalAmount := some a }
      else inv
    | none => inv
  else inv

/-- Subtotal rule (lines 160-164): both 金额 and 税率 present; a truthy
amount overwrites unconditionally. -/
def upd_sales_amount (text : String) (inv : Invoice) : Invoice :=
  if hasSub text "金额" && hasSub text "税率" then
    match extract_amount text with
    | some a => if a ≠ 0 then { inv with salesAmount := some a } else inv
    | none => inv
  else inv

/-- Tax-rate rule (lines 166-170): label 税率 present; a truthy (nonzero)
extracted rate overwrites unconditionally. -/
def upd_tax_rate (text : String) (inv : Invoice) : Invoice :=
  if hasSub text "税率" then
    match extract_tax_rate text with
    | some r => if r ≠ 0 then { inv with taxRate := some r } else inv
    | none => inv
  else inv

/-- The per-line field updates of process_line, in source order. -/
def apply_line (text : String) (inv : Invoice) : Invoice :=
  upd_tax_rate text (upd_sales_amount text (upd_total_amount text (upd_date text
    (upd_tax_id text (upd_seller text (upd_buyer text (upd_check_code text
      (upd_invoice_number text inv))))))))

/-- process_line (source lines 102-170): on a source change, append the
previous accumulator (if any) to self.invoices and start a fresh one, then
apply the field rules to the line. -/
def process_line (st : PState) (text source : String) : PState :=
  let st1 :=
    if st.current.path = some source then st
    else
      { st with
        invoices := st.invoices ++ (match st.current.path with
                                    | some _ => [st.current]
                                    | none => []),
        current := { emptyInvoice with path := some source } }
  { st1 with current := apply_line text st1.current }

/-- validate_amount (source lines 353-358). -/
def validate_amount : Option ℚ → Bool
  | none => false
  | some a => decide (0 < a) && decide (a < 1000000)

/-- The acceptance condition of finalize_invoice (source lines 176-178):
invoice number present, total amount present, amount valid. -/
def acceptance (inv : Invoice) : Bool :=
  inv.invoiceNo.isSome && inv.totalAmount.isSome && validate_amount inv.totalAmount

/-- finalize_invoice (source lines 172-188): no-op without a current document;
an accepted record is only logged; a rejected record's path is appended to
failed_files unless already present. -/
def finalize_invoice (st : PState) : PState :=
  match st.current.path with
  | none => st
  | some f =>
    if acceptance st.current then st
    else if f ∈ st.failed_files then st
    else { st with failed_files := st.failed_files ++ [f] }

/-- Streaming a list of (text, source) rows through process_line from the
initial state (no finalization), for stating pass-1 invariants. -/
def run_lines (rows : List (String × String)) : PState :=
  rows.foldl (fun st p => process_line st p.1 p.2) initState

/-! ## Recovery engine: retry_extract / second_pass_process
(source lines 190-321) -/

/-- round(x, 2) of Python, on rationals: round half to even at the integer
step (bankers rounding), applied to 100 * x.  Two-decimal currency values are
exactly representable, so the binary-float detour of the source is dropped. -/
def roundHalfEven (x : ℚ) : ℤ :=
  let n := ⌊x⌋
  let f := x - (n : ℚ)
  if f < 1/2 then n
  else if 1/2 < f then n + 1
  else if n % 2 = 0 then n else n + 1

/-- round(x, 2). -/
def round2 (x : ℚ) : ℚ :=
  (roundHalfEven (100 * x) : ℚ) / 100

/-- Non-overlapping matches of re.findall(r'(\d+\.?\d*)', line): greedy digit
run, optional dot, greedy digit run; scanning resumes after each match.  The
fuel argument (instantiated with the length of the list) only serves
structural termination; every recursive call shortens the list. -/
def findAllNumsF : Nat → List Char → List (List Char)
  | 0, _ => []
  | _, [] => []
  | fuel + 1, c :: rest =>
    if c.isDigit then
      let ip := c :: rest.takeWhile Char.isDigit
      let after := rest.dropWhile Char.isDigit
      match after with
      | '.' :: r2 =>
        (ip ++ '.' :: r2.takeWhile Char.isDigit) ::
          findAllNumsF fuel (r2.dropWhile Char.isDigit)
      | _ => ip :: findAllNumsF fuel after
    else findAllNumsF fuel rest

/-- re.findall(r'(\d+\.?\d*)', line). -/
def findAllNums (cs : List Char) : List (List Char) :=
  findAllNumsF cs.length cs

/-- float() of a findall group (digits, optional dot, digits). -/
def parseFloat (cs : List Char) : ℚ :=
  let ip := cs.takeWhile Char.isDigit
  match cs.drop ip.length with
  | '.' :: fr => (natOfDigits ip : ℚ) + (natOfDigits fr : ℚ) / ((10 : ℚ) ^ fr.length)
  | _ => (natOfDigits ip : ℚ)

/-- Insert into an ascending duplicate-free list, keeping it ascending and
duplicate-free. -/
def insertSorted (a : ℚ) : List ℚ → List ℚ
  | [] => [a]
  | b :: t =>
    if a < b then a :: b :: t
    else if a = b then b :: t
    else b :: insertSorted a t

/-- sorted(list(set(xs))): the ascending duplicate-free list with the same
members. -/
def sortDedup (l : List ℚ) : List ℚ :=
  l.foldr insertSorted []

/-- The tax-rate scan of retry_extract (source lines 215-223): the first line
whose first percent match lies strictly between 0 and 100 yields the rate;
a line whose first match is out of range is skipped as a whole. -/
def recovery_rate (lines : List String) : Option ℚ :=
  lines.findSome? (fun l =>
    match searchPercent l.data with
    | some n => if 0 < n && n < 100 then some ((n : ℚ) / 100) else none
    | none => none)

/-- The amount-candidate collection of retry_extract (source lines 230-243):
every findall number of every line, parsed, kept when in (0, 1000000),
deduplicated and sorted ascending. -/
def amounts_list (lines : List String) : List ℚ :=
  sortDedup (((lines.map (fun l => findAllNums l.data)).flatten.map parseFloat).filter
    (fun a => decide (0 < a) && decide (a < 1000000)))

/-- The reconciliation search of retry_extract (source lines 249-259): the
first candidate s (in the ascending candidate list) whose expected total
round(s * (1 + rate), 2) is itself a candidate, together with that total. -/
def find_pair (A : List ℚ) (r : ℚ) : Option (ℚ × ℚ) :=
  (A.find? (fun s => decide (round2 (s * (1 + r)) ∈ A))).map
    (fun s => (s, round2 (s * (1 + r))))

/-- Pattern r'发票号码:?\s*(\d+)' of retry_patterns (source line 39): the label,
an optional ASCII colon, whitespace, then a nonempty digit group.  Note that
the full-width colon ： is not part of this retry pattern. -/
def matchP1At (cs : List Char) : Option (List Char) :=
  if "发票号码".data.isPrefixOf cs then
    let after := cs.drop 4
    let after2 := match after with
                  | ':' :: t => t
                  | _ => after
    let ds := (after2.dropWhile isPySpace).takeWhile Char.isDigit
    if ds.isEmpty then none else some ds
  else none

/-- re.search of the first retry pattern for 发票号码, as a string group. -/
def p1Group (l : String) : Option String :=
  (reSearch matchP1At l.data).map String.mk

/-- Pattern r'^\d{20}$' of retry_patterns (source line 40): the whole line is
exactly twenty digits; with no capture group, match.group(0) is the line. -/
def p2Group (l : String) : Option String :=
  if l.data.length = 20 && l.data.all Char.isDigit then some l else none

/-- The inner pattern loop of the 发票号码 branch of retry_extract (source
lines 194-202): on one line, pattern 1 then pattern 2; a match shorter than 8
characters is not returned and the loop continues. -/
def try_inv_line (l : String) : Option String :=
  match p1Group l with
  | some s =>
    if s.length ≥ 8 then some s
    else
      match p2Group l with
      | some s2 => if s2.length ≥ 8 then some s2 else none
      | none => none
  | none =>
    match p2Group l with
    | some s2 => if s2.length ≥ 8 then some s2 else none
    | none => none

/-- The 发票号码 branch of retry_extract (source lines 193-203): outer loop
over lines, inner loop over the pattern cascade. -/
def retry_invoice_number : List String → Option String
  | [] => none
  | l :: ls =>
    match try_inv_line l with
    | some s => some s
    | none => retry_invoice_number ls

/-- The 购买方 branch of retry_extract (source lines 206-212): first line
containing 购 and 名称 with a colon match; group stripped. -/
def retry_buyer (lines : List String) : Option String :=
  lines.findSome? (fun l =>
    if hasSub l "购" && hasSub l "名称" then
      (colonName l.data).map (fun g => String.mk (stripWS g))
    else none)

/-- Fill the tax-rate cache if it is empty (source lines 215-223). -/
def fillTaxRateCache (c : Caches) (lines : List String) : Caches :=
  if c.tax_rate.isSome then c else { c with tax_rate := recovery_rate lines }

/-- Fill the amount-candidate cache if it is empty (source lines 230-243). -/
def fillAmountsCache (c : Caches) (lines : List String) : Caches :=
  if c.amounts.isSome then c else { c with amounts := some (amounts_list lines) }

/-- The fields retried through the numeric fall-through of retry_extract. -/
inductive RField where
  | totalAmountF   -- 总金额
  | salesAmountF   -- 销售金额
  | dateF          -- 日期
  | sellerF        -- 销售方
  | taxRateF       -- 税率
deriving DecidableEq

/-- The fall-through part of retry_extract (source lines 214-267) for every
field other than 发票号码 and 购买方: fill the tax-rate cache, answer 税率
from it, fill the amount cache, and for 总金额 / 销售金额 run the
reconciliation search once (guarded by the _found_match flag) and answer from
the cached pair; every other field falls through to None. -/
def retry_numeric (c : Caches) (lines : List String) (field : RField) :
    Option ℚ × Caches :=
  let c1 := fillTaxRateCache c lines
  if field = RField.taxRateF then (c1.tax_rate, c1)
  else
    let c2 := fillAmountsCache c1 lines
    if (field = RField.totalAmountF || field = RField.salesAmountF)
        && c2.tax_rate.isSome then
      let c3 :=
        if c2.found_match then c2
        else
          match c2.tax_rate with
          | some r =>
            match find_pair (c2.amounts.getD []) r with
            | some (s, t) =>
              { c2 with found_match := true, cached_sales := s, cached_total := t }
            | none => c2
          | none => c2
      if c3.found_match then
        ((if field = RField.totalAmountF then some c3.cached_total
          else some c3.cached_sales), c3)
      else (none, c3)
    else (none, c2)

/-- second_pass_process (source lines 269-321).  The caches are reset at the
start (lines 272-276: tax-rate and amount caches cleared, _found_match
deleted; _cached_sales_amount / _cached_total_amount keep their old values but
are only readable under a fresh _found_match).  A fresh accumulator is built
(lines 283-285), then the six fields of fields_to_retry are retried in order
(lines 287-305); a non-None value is stored into the accumulator.  The calls
for 日期 and 销售方 go through the numeric fall-through of retry_extract and
always return None (they thread the caches nonetheless).  Success (lines
307-318) requires the _found_match flag plus invoice number and total amount;
on success the old record of the file is removed from self.invoices and the
fresh record appended.  The lines argument models the text rows of output.csv
whose source equals the failed file. -/
def second_pass_process (st : PState) (f : String) (lines : List String) :
    PState × Bool :=
  let c0 : Caches :=
    { tax_rate := none, amounts := none, found_match := false,
      cached_sales := st.caches.cached_sales,
      cached_total := st.caches.cached_total }
  let inv0 : Invoice := { emptyInvoice with path := some f }
  -- field 发票号码 (stored into 发票号)
  let inv1 := match retry_invoice_number lines with
              | some s => { inv0 with invoiceNo := some s }
              | none => inv0
  -- field 总金额
  let r2 := retry_numeric c0 lines RField.totalAmountF
  let inv2 := match r2.1 with
              | some q => { inv1 with totalAmount := some q }
              | none => inv1
  -- field 日期: the numeric fall-through returns None for it
  let r3 := retry_numeric r2.2 lines RField.dateF
  let inv3 := match r3.1 with
              | some _ => inv2
              | none => inv2
  -- field 购买方
  let inv4 := match retry_buyer lines with
              | some s => { inv3 with buyer := some s }
              | none => inv3
  -- field 销售方: the numeric fall-through returns None for it
  let r5 := retry_numeric r3.2 lines RField.sellerF
  let inv5 := match r5.1 with
              | some _ => inv4
              | none => inv4
  -- field 税率
  let r6 := retry_numeric r5.2 lines RField.taxRateF
  let inv6 := match r6.1 with
              | some q => { inv5 with taxRate := some q }
              | none => inv5
  if r6.2.found_match && inv6.invoiceNo.isSome && inv6.totalAmount.isSome then
    ({ st with
        current := inv6,
        caches := r6.2,
        invoices := st.invoices.filter (fun inv => decide (inv.path ≠ some f)) ++ [inv6] },
      true)
  else
    ({ st with current := inv6, caches := r6.2 }, false)

/-- One iteration of the retry loop of process_csv (source lines 338-341):
run the second pass and, on success, remove the file from failed_files. -/
def retry_step (st : PState) (f : String) (lines : List String) : PState :=
  let r := second_pass_process st f lines
  if r.2 then { r.1 with failed_files := r.1.failed_files.erase f } else r.1

/-- The row loop of process_csv (source lines 327-332): finalize on a source
change, then process the line; cur is the loop variable current_source. -/
def csvLoop : List (String × String) → PState → Option String → PState
  | [], st, _ => st
  | (t, s) :: rest, st, cur =>
    let st1 := if cur ≠ some s then finalize_invoice st else st
    csvLoop rest (process_line st1 t s) (some s)

/-- process_csv (source lines 323-351): stream the rows, finalize the last
in-flight document, then retry every failed file over a snapshot of
failed_files.  Each retry re-reads the same csv, modelled by filtering the
rows by source.  The returned record list (the DataFrame) is the invoices
field of the final state. -/
def process_csv (rows : List (String × String)) : PState :=
  let st := finalize_invoice (csvLoop rows initState none)
  st.failed_files.foldl
    (fun s f => retry_step s f ((rows.filter (fun p => p.2 = f)).map (fun p => p.1)))
    st

/-! ## Deduplication and reporting (main, source lines 385-405) -/

/-- pandas drop_duplicates on one key column with keep=first: keep a row when
no earlier row has the same key; seen accumulates the keys already kept. -/
def drop_dup_by (key : Invoice → Option String) :
    List Invoice → List (Option String) → List Invoice
  | [], _ => []
  | r :: rs, seen =>
    if key r ∈ seen then drop_dup_by key rs seen
    else r :: drop_dup_by key rs (key r :: seen)

/-- result_df.drop_duplicates(subset=['路径']) (source line 385). -/
def result_records (l : List Invoice) : List Invoice :=
  drop_dup_by (fun r => r.path) l []

/-- valid_invoices = result_df.dropna(subset=['发票号', '总金额'])
(source line 386). -/
def valid_invoices (l : List Invoice) : List Invoice :=
  (result_records l).filter (fun r => r.invoiceNo.isSome && r.totalAmount.isSome)

/-- unique_invoices = valid_invoices.drop_duplicates(subset=['发票号'])
(source line 389), keep=first. -/
def unique_invoices (l : List Invoice) : List Invoice :=
  drop_dup_by (fun r => r.invoiceNo) (valid_invoices l) []

/-- duplicate_invoices = valid_invoices[valid_invoices.duplicated(
subset=['发票号'], keep=False)] (source line 390): every row whose invoice
number occurs at least twice. -/
def duplicate_invoices (l : List Invoice) : List Invoice :=
  (valid_invoices l).filter (fun r =>
    2 ≤ (valid_invoices l).countP (fun x => decide (x.invoiceNo = r.invoiceNo)))

/-! ## Spec-side comparison definitions -/

/-- Stated by the spec for claim C9 (spec section 4.2): the pass-1 tax-rate
update allegedly triggered by the presence of a percent sign on the line. -/
def upd_tax_rate_percent_trigger (text : String) (inv : Invoice) : Invoice :=
  if text.data.contains '%' then
    match extract_tax_rate text with
    | some r => if r ≠ 0 then { inv with taxRate := some r } else inv
    | none => inv
  else inv

/-- Stated by the spec for claim C4 (spec section 4.4): cascade-first, then
line-first evaluation of the 发票号码 retry cascade — every line tested
against pattern 1 before any line is tested against pattern 2. -/
def retry_invoice_number_cascade_first (lines : List String) : Option String :=
  match lines.findSome? (fun l =>
      match p1Group l with
      | some s => if s.length ≥ 8 then some s else none
      | none => none) with
  | some s => some s
  | none =>
    lines.findSome? (fun l =>
      match p2Group l with
      | some s => if s.length ≥ 8 then some s else none
      | none => none)

/-- The amended evaluation order for claim C4: line-first, then
cascade-first — each line is tested against the whole cascade before the next
line is considered; the first (length-qualified) match wins. -/
def retry_invoice_number_line_first (lines : List String) : Option String :=
  lines.findSome? try_inv_line

/-- The reconciliation outcome of one full recovery attempt: the (subtotal,
total) pair found by the search, run with the cached rate over the cached
candidate list, when a rate exists. -/
def found_pair (lines : List String) : Option (ℚ × ℚ) :=
  match recovery_rate lines with
  | some r => find_pair (amounts_list lines) r
  | none => none

/-- An optional amount that is positive whenever set. -/
def posOpt (o : Option ℚ) : Prop := ∀ v, o = some v → 0 < v

/-! ## Concrete inputs used in the theorems -/

/-- Recovery example: rate 6 percent, candidate amounts 6, 90 and 95.40. -/
def recLines : List String := ["发票号码: 12345678", "税率 6%", "90.00", "95.40"]

/-- Cascade-order example: a bare 20-digit line before a labelled line. -/
def cascadeLines : List String := ["12345678901234567890", "发票号码: 87654321"]

/-- The end-to-end scenario rows of the spec (section 8). -/
def endToEndRows : List (String × String) :=
  [("购买方名称：ABC公司", "doc1"), ("发票号码：12345678", "doc1"),
   ("价税合计（小写）￥113.00", "doc1")]

/-- Deduplication example records: same invoice number, sources b.pdf and
a.pdf, appearing in that order in the accepted list. -/
def rec_b : Invoice :=
  { emptyInvoice with
      path := some "b.pdf", invoiceNo := some "2024000123", totalAmount := some 100 }

def rec_a : Invoice :=
  { emptyInvoice with
      path := some "a.pdf", invoiceNo := some "2024000123", totalAmount := some 100 }

/-- Boundary record: total amount exactly 0. -/
def boundaryZeroState : PState :=
  { initState with current :=
      { emptyInvoice with
          path := some "x.pdf", invoiceNo := some "123", totalAmount := some 0 } }

/-- Boundary record: total amount exactly 1000000. -/
def boundaryMillionState : PState :=
  { initState with current :=
      { emptyInvoice with
          path := some "x.pdf", invoiceNo := some "123", totalAmount := some 1000000 } }

/-- A record satisfying the acceptance predicate. -/
def acceptedState : PState :=
  { initState with current :=
      { emptyInvoice with
          path := some "ok.pdf", invoiceNo := some "88888888", totalAmount := some 113 } }

/-! ## Lemmas about the pass-1 updaters -/

theorem upd_invoice_number_totalAmount (t : String) (inv : Invoice) :
    (upd_invoice_number t inv).totalAmount = inv.totalAmount := by
  unfold upd_invoice_number; split <;> first | rfl | (split <;> rfl)

theorem upd_check_code_totalAmount (t : String) (inv : Invoice) :
    (upd_check_code t inv).totalAmount = inv.totalAmount := by
  unfold upd_check_code; split <;> first | rfl | (split <;> rfl)

theorem upd_buyer_totalAmount (t : String) (inv : Invoice) :
    (upd_buyer t inv).totalAmount = inv.totalAmount := by
  unfold upd_buyer; split <;> first | rfl | (split <;> rfl)

theorem upd_seller_totalAmount (t : String) (inv : Invoice) :
    (upd_seller t inv).totalAmount = inv.totalAmount := by
  unfold upd_seller; split <;> first | rfl | (split <;> rfl)

theorem upd_tax_id_totalAmount (t : String) (inv : Invoice) :
    (upd_tax_id t inv).totalAmount = inv.totalAmount := by
  unfold upd_tax_id
  split <;> first | rfl | (split <;> first | rfl | (split <;> rfl))

theorem upd_date_totalAmount (t : String) (inv : Invoice) :
    (upd_date t inv).totalAmount = inv.totalAmount := by
  unfold upd_date; split <;> first | rfl | (split <;> rfl)

theorem upd_sales_amount_totalAmount (t : String) (inv : Invoice) :
    (upd_sales_amount t inv).totalAmount = inv.totalAmount := by
  unfold upd_sales_amount
  split <;> first | rfl | (split <;> first | rfl | (split <;> rfl))

theorem upd_tax_rate_totalAmount (t : String) (inv : Invoice) :
    (upd_tax_rate t inv).totalAmount = inv.totalAmount := by
  unfold upd_tax_rate
  split <;> first | rfl | (split <;> first | rfl | (split <;> rfl))

theorem upd_invoice_number_salesAmount (t : String) (inv : Invoice) :
    (upd_invoice_number t inv).salesAmount = inv.salesAmount := by
  unfold upd_invoice_number; split <;> first | rfl | (split <;> rfl)

theorem upd_check_code_salesAmount (t : String) (inv : Invoice) :
    (upd_check_code t inv).salesAmount = inv.salesAmount := by
  unfold upd_check_code; split <;> first | rfl | (split <;> rfl)

theorem upd_buyer_salesAmount (t : String) (inv : Invoice) :
    (upd_buyer t inv).salesAmount = inv.salesAmount := by
  unfold upd_buyer; split <;> first | rfl | (split <;> rfl)

theorem upd_seller_salesAmount (t : String) (inv : Invoice) :
    (upd_seller t inv).salesAmount = inv.salesAmount := by
  unfold upd_seller; split <;> first | rfl | (split <;> rfl)

theorem upd_tax_id_salesAmount (t : String) (inv : Invoice) :
    (upd_tax_id t inv).salesAmount = inv.salesAmount := by
  unfold upd_tax_id
  split <;> first | rfl | (split <;> first | rfl | (split <;> rfl))

theorem upd_date_salesAmount (t : String) (inv : Invoice) :
    (upd_date t inv).salesAmount = inv.salesAmount := by
  unfold upd_date; split <;> first | rfl | (split <;> rfl)

theorem upd_total_amount_salesAmount (t : String) (inv : Invoice) :
    (upd_total_amount t inv).salesAmount = inv.salesAmount := by
  unfold upd_total_amount
  split <;> first | rfl | (split <;> first | rfl | (split <;> rfl))

theorem upd_tax_rate_salesAmount (t : String) (inv : Invoice) :
    (upd_tax_rate t inv).salesAmount = inv.salesAmount := by
  unfold upd_tax_rate
  split <;> first | rfl | (split <;> first | rfl | (split <;> rfl))

theorem upd_invoice_number_taxRate (t : String) (inv : Invoice) :
    (upd_invoice_number t inv).taxRate = inv.taxRate := by
  unfold upd_invoice_number; split <;> first | rfl | (split <;> rfl)

theorem upd_check_code_taxRate (t : String) (inv : Invoice) :
    (upd_check_code t inv).taxRate = inv.taxRate := by
  unfold upd_check_code; split <;> first | rfl | (split <;> rfl)

theorem upd_buyer_taxRate (t : String) (inv : Invoice) :
    (upd_buyer t inv).taxRate = inv.taxRate := by
  unfold upd_buyer; split <;> first | rfl | (split <;> rfl)

theorem upd_seller_taxRate (t : String) (inv : Invoice) :
    (upd_seller t inv).taxRate = inv.taxRate := by
  unfold upd_seller; split <;> first | rfl | (split <;> rfl)

theorem upd_tax_id_taxRate (t : String) (inv : Invoice) :
    (upd_tax_id t inv).taxRate = inv.taxRate := by
  unfold upd_tax_id
  split <;> first | rfl | (split <;> first | rfl | (split <;> rfl))

theorem upd_date_taxRate (t : String) (inv : Invoice) :
    (upd_date t inv).taxRate = inv.taxRate := by
  unfold upd_date; split <;> first | rfl | (split <;> rfl)

theorem upd_total_amount_taxRate (t : String) (inv : Invoice) :
    (upd_total_amount t inv).taxRate = inv.taxRate := by
  unfold upd_total_amount
  split <;> first | rfl | (split <;> first | rfl | (split <;> rfl))

theorem upd_sales_amount_taxRate (t : String) (inv : Invoice) :
    (upd_sales_amount t inv).taxRate = inv.taxRate := by
  unfold upd_sales_amount
  split <;> first | rfl | (split <;> first | rfl | (split <;> rfl))

theorem upd_total_amount_totalAmount (t : String) (inv : Invoice) :
    (upd_total_amount t inv).totalAmount =
      if hasSub t "价税合计" || hasSub t "小写" || hasSub t "￥" ||
         hasSub t "¥" || hasSub t "*" then
        match extract_amount t with
        | some a =>
          if decide (a ≠ 0) && (match inv.totalAmount with
                                | none => true
                                | some c => decide (c < a)) then some a
          else inv.totalAmount
        | none => inv.totalAmount
      else inv.totalAmount := by
  unfold upd_total_amount
  split <;> first | rfl | (split <;> first | rfl | (split <;> rfl))

theorem upd_sales_amount_salesAmount (t : String) (inv : Invoice) :
    (upd_sales_amount t inv).salesAmount =
      if hasSub t "金额" && hasSub t "税率" then
        match extract_amount t with
        | some a => if a ≠ 0 then some a else inv.salesAmount
        | none => inv.salesAmount
      else inv.salesAmount := by
  unfold upd_sales_amount
  split <;> first | rfl | (split <;> first | rfl | (split <;> rfl))

theorem upd_tax_rate_taxRate (t : String) (inv : Invoice) :
    (upd_tax_rate t inv).taxRate =
      if hasSub t "税率" then
        match extract_tax_rate t with
        | some r => if r ≠ 0 then some r else inv.taxRate
        | none => inv.taxRate
      else inv.taxRate := by
  unfold upd_tax_rate
  split <;> first | rfl | (split <;> first | rfl | (split <;> rfl))

/-- The total-amount field after one line: the only rule that touches it is
the monotonic-max rule of lines 154-158. -/
theorem apply_line_totalAmount (t : String) (inv : Invoice) :
    (apply_line t inv).totalAmount =
      if hasSub t "价税合计" || hasSub t "小写" || hasSub t "￥" ||
         hasSub t "¥" || hasSub t "*" then
        match extract_amount t with
        | some a =>
          if decide (a ≠ 0) && (match inv.totalAmount with
                                | none => true
                                | some c => decide (c < a)) then some a
          else inv.totalAmount
        | none => inv.totalAmount
      else inv.totalAmount := by
  simp only [apply_line, upd_tax_rate_totalAmount, upd_sales_amount_totalAmount,
    upd_total_amount_totalAmount, upd_date_totalAmount, upd_tax_id_totalAmount,
    upd_seller_totalAmount, upd_buyer_totalAmount, upd_check_code_totalAmount,
    upd_invoice_number_totalAmount]

/-- The subtotal field after one line: the only rule that touches it is the
rule of lines 160-164. -/
theorem apply_line_salesAmount (t : String) (inv : Invoice) :
    (apply_line t inv).salesAmount =
      if hasSub t "金额" && hasSub t "税率" then
        match extract_amount t with
        | some a => if a ≠ 0 then some a else inv.salesAmount
        | none => inv.salesAmount
      else inv.salesAmount := by
  simp only [apply_line, upd_tax_rate_salesAmount, upd_sales_amount_salesAmount,
    upd_total_amount_salesAmount, upd_date_salesAmount, upd_tax_id_salesAmount,
    upd_seller_salesAmount, upd_buyer_salesAmount, upd_check_code_salesAmount,
    upd_invoice_number_salesAmount]

/-- The tax-rate field after one line: the only rule that touches it is the
rule of lines 166-170. -/
theorem apply_line_taxRate (t : String) (inv : Invoice) :
    (apply_line t inv).taxRate =
      if hasSub t "税率" then
        match extract_tax_rate t with
        | some r => if r ≠ 0 then some r else inv.taxRate
        | none => inv.taxRate
      else inv.taxRate := by
  simp only [apply_line, upd_tax_rate_taxRate, upd_sales_amount_taxRate,
    upd_total_amount_taxRate, upd_date_taxRate, upd_tax_id_taxRate,
    upd_seller_taxRate, upd_buyer_taxRate, upd_check_code_taxRate,
    upd_invoice_number_taxRate]

/-- Amounts produced by extract_amount are nonnegative (the pattern has no
sign). -/
theorem extract_amount_nonneg {t : String} {a : ℚ}
    (h : extract_amount t = some a) : 0 ≤ a := by
  unfold extract_amount at h
  cases hm : reSearch matchAmountAt (t.data.filter (fun c => c.isDigit || c = '.')) with
  | none => rw [hm] at h; simp at h
  | some p =>
    rw [hm] at h
    simp only [Option.map_some', Option.some.injEq] at h
    rw [← h]
    positivity

/-- process_line on a line of the current document neither closes the segment
nor touches the record list. -/
theorem process_line_same_source (st : PState) (t src : String)
    (h : st.current.path = some src) :
    process_line st t src = { st with current := apply_line t st.current } := by
  unfold process_line
  rw [if_pos h]

/-! ## Lemmas about the candidate list and the reconciliation search -/

theorem mem_insertSorted (a x : ℚ) :
    ∀ l : List ℚ, x ∈ insertSorted a l ↔ x = a ∨ x ∈ l
  | [] => by simp [insertSorted]
  | b :: t => by
    unfold insertSorted
    split_ifs with h1 h2
    · simp [List.mem_cons]
    · subst h2; simp [List.mem_cons]
    · simp only [List.mem_cons, mem_insertSorted a x t]; tauto

theorem pairwise_insertSorted (a : ℚ) :
    ∀ l : List ℚ, l.Pairwise (· < ·) → (insertSorted a l).Pairwise (· < ·)
  | [], _ => by simp [insertSorted]
  | b :: t, h => by
    unfold insertSorted
    obtain ⟨hb, ht⟩ := List.pairwise_cons.1 h
    split_ifs with h1 h2
    · exact List.pairwise_cons.2 ⟨fun y hy => by
        rcases List.mem_cons.1 hy with rfl | hyt
        · exact h1
        · exact h1.trans (hb y hyt), h⟩
    · exact h
    · have h3 : b < a := by
        rcases lt_trichotomy a b with h' | h' | h'
        · exact absurd h' h1
        · exact absurd h' h2
        · exact h'
      refine List.pairwise_cons.2 ⟨fun y hy => ?_, pairwise_insertSorted a t ht⟩
      rcases (mem_insertSorted a y t).1 hy with rfl | hyt
      · exact h3
      · exact hb y hyt

theorem mem_sortDedup (x : ℚ) : ∀ l : List ℚ, x ∈ sortDedup l ↔ x ∈ l
  | [] => by simp [sortDedup]
  | a :: t => by
    show x ∈ insertSorted a (sortDedup t) ↔ _
    rw [mem_insertSorted, mem_sortDedup x t, List.mem_cons]

theorem pairwise_sortDedup : ∀ l : List ℚ, (sortDedup l).Pairwise (· < ·)
  | [] => by simp [sortDedup]
  | a :: t => pairwise_insertSorted a (sortDedup t) (pairwise_sortDedup t)

/-- Every candidate amount lies in the open interval (0, 1000000)
(the filter at source line 237). -/
theorem mem_amounts_list {lines : List String} {x : ℚ}
    (h : x ∈ amounts_list lines) : 0 < x ∧ x < 1000000 := by
  unfold amounts_list at h
  rw [mem_sortDedup] at h
  rcases List.mem_filter.1 h with ⟨-, hp⟩
  simp only [Bool.and_eq_true, decide_eq_true_eq] at hp
  exact hp

theorem pairwise_amounts_list (lines : List String) :
    (amounts_list lines).Pairwise (· < ·) :=
  pairwise_sortDedup _

/-- The cached recovery tax rate lies in (0, 1) (the guard at source
line 220). -/
theorem recovery_rate_bounds {lines : List String} {r : ℚ}
    (h : recovery_rate lines = some r) : 0 < r ∧ r < 1 := by
  unfold recovery_rate at h
  obtain ⟨l, -, hl⟩ := List.exists_of_findSome?_eq_some h
  cases hp : searchPercent l.data with
  | none => rw [hp] at hl; exact absurd hl (by simp)
  | some n =>
    rw [hp] at hl
    simp only [Option.ite_none_right_eq_some, Option.some.injEq, Bool.and_eq_true,
      decide_eq_true_eq] at hl
    obtain ⟨⟨hn1, hn2⟩, rfl⟩ := hl
    have h0 : (0 : ℚ) < n := by exact_mod_cast hn1
    refine ⟨by positivity, ?_⟩
    rw [div_lt_one (by norm_num)]
    exact_mod_cast hn2

/-- find? on an ascending list returns a minimal element among those
satisfying the predicate. -/
theorem find?_min_sorted {p : ℚ → Bool} :
    ∀ {l : List ℚ} {s : ℚ}, l.Pairwise (· < ·) → l.find? p = some s →
      ∀ x ∈ l, p x = true → s ≤ x := by
  intro l
  induction l with
  | nil => intro s _ hf; simp at hf
  | cons a t ih =>
    intro s hp hf x hx hpx
    obtain ⟨ha, ht⟩ := List.pairwise_cons.1 hp
    cases hpa : p a with
    | true =>
      rw [List.find?_cons_of_pos _ hpa, Option.some.injEq] at hf
      subst hf
      rcases List.mem_cons.1 hx with rfl | hxt
      · exact le_refl x
      · exact (ha x hxt).le
    | false =>
      rw [List.find?_cons_of_neg _ (by simp [hpa])] at hf
      rcases List.mem_cons.1 hx with rfl | hxt
      · rw [hpa] at hpx; exact absurd hpx (by simp)
      · exact ih ht hf x hxt hpx

/-- A successful reconciliation search: the subtotal is a candidate, the
total equals round(subtotal * (1 + rate), 2) and is itself a candidate. -/
theorem find_pair_some {A : List ℚ} {r s t : ℚ}
    (h : find_pair A r = some (s, t)) :
    s ∈ A ∧ t = round2 (s * (1 + r)) ∧ t ∈ A := by
  unfold find_pair at h
  cases hfind : A.find? (fun s => decide (round2 (s * (1 + r)) ∈ A)) with
  | none => rw [hfind] at h; simp at h
  | some s' =>
    rw [hfind] at h
    simp only [Option.map_some', Option.some.injEq, Prod.mk.injEq] at h
    obtain ⟨rfl, rfl⟩ := h
    refine ⟨List.mem_of_find?_eq_some hfind, rfl, ?_⟩
    have hps := List.find?_some hfind
    exact of_decide_eq_true (by simpa using hps)

/-- The subtotal returned by the reconciliation search is the smallest
candidate with a matching total. -/
theorem find_pair_min {A : List ℚ} {r s t : ℚ} (hA : A.Pairwise (· < ·))
    (h : find_pair A r = some (s, t)) :
    ∀ x ∈ A, round2 (x * (1 + r)) ∈ A → s ≤ x := by
  unfold find_pair at h
  cases hfind : A.find? (fun s => decide (round2 (s * (1 + r)) ∈ A)) with
  | none => rw [hfind] at h; simp at h
  | some s' =>
    rw [hfind] at h
    simp only [Option.map_some', Option.some.injEq, Prod.mk.injEq] at h
    obtain ⟨rfl, -⟩ := h
    intro x hx hrx
    exact find?_min_sorted hA hfind x hx (decide_eq_true hrx)

/-- When no candidate pair satisfies the tax relation, the search fails. -/
theorem find_pair_eq_none {A : List ℚ} {r : ℚ}
    (h : ∀ x ∈ A, round2 (x * (1 + r)) ∉ A) : find_pair A r = none := by
  unfold find_pair
  rw [List.find?_eq_none.2 (fun x hx => by simpa using h x hx)]
  rfl

/-! ## Characterization of one recovery attempt

The cache reset at the start of second_pass_process makes the freshly built
record and the success flag depend only on the document's lines; the record's
fields are exactly the outcomes of the per-field retry helpers. -/

theorem second_pass_spec (st : PState) (f : String) (lines : List String) :
    (second_pass_process st f lines).1.current.path = some f
  ∧ (second_pass_process st f lines).1.current.invoiceNo = retry_invoice_number lines
  ∧ (second_pass_process st f lines).1.current.buyer = retry_buyer lines
  ∧ (second_pass_process st f lines).1.current.taxRate = recovery_rate lines
  ∧ (second_pass_process st f lines).1.current.totalAmount = (found_pair lines).map Prod.snd
  ∧ (second_pass_process st f lines).1.current.salesAmount = none
  ∧ (second_pass_process st f lines).1.current.seller = none
  ∧ (second_pass_process st f lines).1.current.date = none
  ∧ (second_pass_process st f lines).1.current.buyerTaxId = none
  ∧ (second_pass_process st f lines).1.current.sellerTaxId = none
  ∧ (second_pass_process st f lines).1.current.invoiceCode = none
  ∧ (second_pass_process st f lines).1.current.checkCode = none
  ∧ (second_pass_process st f lines).2
      = ((retry_invoice_number lines).isSome && (found_pair lines).isSome)
  ∧ (second_pass_process st f lines).1.failed_files = st.failed_files
  ∧ ((second_pass_process st f lines).2 = true →
      (second_pass_process st f lines).1.invoices
        = st.invoices.filter (fun inv => decide (inv.path ≠ some f))
            ++ [(second_pass_process st f lines).1.current])
  ∧ ((second_pass_process st f lines).2 = false →
      (second_pass_process st f lines).1.invoices = st.invoices) := by
  cases h1 : recovery_rate lines with
  | none =>
    cases h3 : retry_invoice_number lines <;> cases h4 : retry_buyer lines <;>
      simp [second_pass_process, retry_numeric, fillTaxRateCache, fillAmountsCache,
            found_pair, emptyInvoice, h1, h3, h4]
  | some r =>
    cases h2 : find_pair (amounts_list lines) r <;>
    cases h3 : retry_invoice_number lines <;> cases h4 : retry_buyer lines <;>
      simp [second_pass_process, retry_numeric, fillTaxRateCache, fillAmountsCache,
            found_pair, emptyInvoice, h1, h2, h3, h4]


/-- A successful reconciliation outcome comes from a cached rate and the
search over the candidate list. -/
theorem found_pair_some {lines : List String} {s t : ℚ}
    (h : found_pair lines = some (s, t)) :
    ∃ r, recovery_rate lines = some r ∧ find_pair (amounts_list lines) r = some (s, t) := by
  unfold found_pair at h
  cases hr : recovery_rate lines with
  | none => rw [hr] at h; exact absurd h (by simp)
  | some r => rw [hr] at h; exact ⟨r, rfl, h⟩

/-! ## Lemmas about the deduplication of main -/

/-- A record kept by drop_duplicates(keep=first) is the first of the input
list carrying its key, and its key was not previously seen. -/
theorem mem_drop_dup_by (key : Invoice → Option String) :
    ∀ (l : List Invoice) (seen : List (Option String)) (r : Invoice),
      r ∈ drop_dup_by key l seen →
      key r ∉ seen ∧ l.find? (fun x => decide (key x = key r)) = some r := by
  intro l
  induction l with
  | nil => intro seen r hr; simp [drop_dup_by] at hr
  | cons a t ih =>
    intro seen r hr
    unfold drop_dup_by at hr
    by_cases hmem : key a ∈ seen
    · rw [if_pos hmem] at hr
      obtain ⟨hns, hfind⟩ := ih seen r hr
      have hne : key a ≠ key r := fun he => hns (he ▸ hmem)
      refine ⟨hns, ?_⟩
      rw [List.find?_cons_of_neg _ (by simp [hne]), hfind]
    · rw [if_neg hmem] at hr
      rcases List.mem_cons.1 hr with rfl | hr2
      · exact ⟨hmem, List.find?_cons_of_pos _ (by simp)⟩
      · obtain ⟨hns, hfind⟩ := ih (key a :: seen) r hr2
        have hne : key a ≠ key r := fun he => hns (by rw [← he]; exact List.mem_cons_self _ _)
        refine ⟨fun hrs => hns (List.mem_cons_of_mem _ hrs), ?_⟩
        rw [List.find?_cons_of_neg _ (by simp [hne]), hfind]

/-- drop_duplicates(keep=first) keeps at most one record per key. -/
theorem pairwise_drop_dup_by (key : Invoice → Option String) :
    ∀ (l : List Invoice) (seen : List (Option String)),
      (drop_dup_by key l seen).Pairwise (fun a b => key a ≠ key b) := by
  intro l
  induction l with
  | nil => intro seen; simp [drop_dup_by]
  | cons a t ih =>
    intro seen
    unfold drop_dup_by
    by_cases hmem : key a ∈ seen
    · rw [if_pos hmem]; exact ih seen
    · rw [if_neg hmem]
      refine List.pairwise_cons.2 ⟨fun y hy => ?_, ih (key a :: seen)⟩
      have hy' := (mem_drop_dup_by key t (key a :: seen) y hy).1
      exact fun he => hy' (he ▸ List.mem_cons_self _ _)


/-! ## Claim theorems

Rat.add, Rat.mul, Rat.sub and Rat.inv are irreducible by default, which
blocks the decide-based evaluation of the model on concrete inputs; they are
made semireducible for this section (the kernel re-checks every evaluation
either way). -/

section
attribute [local semireducible] Rat.add Rat.mul Rat.sub Rat.inv


theorem posOpt_none : posOpt none := by
  intro v h
  exact absurd h (by simp)

theorem process_line_current (st : PState) (t s : String) :
    (process_line st t s).current
      = apply_line t (if st.current.path = some s then st.current
                      else { emptyInvoice with path := some s }) := by
  unfold process_line
  split <;> rfl

theorem apply_line_posOpt_total {inv : Invoice} (t : String)
    (h : posOpt inv.totalAmount) : posOpt (apply_line t inv).totalAmount := by
  rw [apply_line_totalAmount]
  split
  · cases hE : extract_amount t with
    | none => simpa using h
    | some a =>
      simp only [hE]
      split
      · rename_i hcond
        intro v hv
        obtain rfl : a = v := by simpa using hv
        have hcond' := hcond
        simp only [Bool.and_eq_true, decide_eq_true_eq] at hcond'
        exact lt_of_le_of_ne (extract_amount_nonneg hE) (Ne.symm hcond'.1)
      · exact h
  · exact h

theorem apply_line_posOpt_sales {inv : Invoice} (t : String)
    (h : posOpt inv.salesAmount) : posOpt (apply_line t inv).salesAmount := by
  rw [apply_line_salesAmount]
  split
  · cases hE : extract_amount t with
    | none => simpa using h
    | some a =>
      simp only [hE]
      split
      · rename_i hne
        intro v hv
        obtain rfl : a = v := by simpa using hv
        exact lt_of_le_of_ne (extract_amount_nonneg hE) (Ne.symm hne)
      · exact h
  · exact h

/-- C3: for every document and every pass-1 line of the same document, the
total-amount field, once set, is never decreased by a later process_line call;
a later matching amount replaces it only when strictly larger; feeding
total-amount lines 100.00 then 50.00 (or 50.00 then 100.00) yields a
finalized total of 100.00. -/
theorem c3_monotonic_max :
    (∀ (st : PState) (text source : String) (v : ℚ),
        st.current.path = some source → st.current.totalAmount = some v →
        ∃ w, (process_line st text source).current.totalAmount = some w
          ∧ v ≤ w ∧ (v ≠ w → v < w ∧ extract_amount text = some w))
  ∧ (finalize_invoice (run_lines [("￥100.00", "d"), ("￥50.00", "d")])).current.totalAmount
      = some 100
  ∧ (finalize_invoice (run_lines [("￥50.00", "d"), ("￥100.00", "d")])).current.totalAmount
      = some 100 := by
  refine ⟨?_, by decide, by decide⟩
  intro st text source v hpath htot
  rw [process_line_current, if_pos hpath, apply_line_totalAmount, htot]
  split
  · cases hE : extract_amount text with
    | none =>
      simp only [hE]
      exact ⟨v, rfl, le_refl v, fun hne => absurd rfl hne⟩
    | some a =>
      simp only [hE]
      split
      · rename_i hcond
        simp only [Bool.and_eq_true, decide_eq_true_eq] at hcond
        exact ⟨a, rfl, hcond.2.le, fun _ => ⟨hcond.2, rfl⟩⟩
      · exact ⟨v, rfl, le_refl v, fun hne => absurd rfl hne⟩
  · exact ⟨v, rfl, le_refl v, fun hne => absurd rfl hne⟩

/-- C9 (amended): the pass-1 tax-rate update is triggered by the label
substring 税率 (not by the mere presence of a percent sign); the extraction
pattern requires a digit run immediately followed by a percent sign; the
matched value divided by 100 overwrites the field unconditionally when
nonzero, and a matched 0 percent leaves the field unchanged. -/
theorem c9_tax_rate_trigger : ∀ (text : String) (inv : Invoice),
    (hasSub text "税率" = false → (apply_line text inv).taxRate = inv.taxRate)
  ∧ (∀ n : Nat, hasSub text "税率" = true → searchPercent text.data = some n → n ≠ 0 →
      (apply_line text inv).taxRate = some ((n : ℚ) / 100))
  ∧ (searchPercent text.data = some 0 → (apply_line text inv).taxRate = inv.taxRate)
  ∧ (searchPercent text.data = none → (apply_line text inv).taxRate = inv.taxRate) := by
  intro text inv
  refine ⟨?_, ?_, ?_, ?_⟩
  · intro h
    rw [apply_line_taxRate, h]
    simp
  · intro n hsub hp hn
    have hE : extract_tax_rate text = some ((n : ℚ) / 100) := by
      unfold extract_tax_rate
      rw [hp]
      rfl
    have hne : ((n : ℚ) / 100) ≠ 0 :=
      div_ne_zero (Nat.cast_ne_zero.2 hn) (by norm_num)
    rw [apply_line_taxRate, hsub]
    simp only [if_true, hE]
    rw [if_pos hne]
  · intro hp
    have hE : extract_tax_rate text = some 0 := by
      unfold extract_tax_rate
      rw [hp]
      norm_num
    rw [apply_line_taxRate]
    split
    · simp [hE]
    · rfl
  · intro hp
    have hE : extract_tax_rate text = none := by
      unfold extract_tax_rate
      rw [hp]
      rfl
    rw [apply_line_taxRate]
    split
    · simp [hE]
    · rfl

/-- C10: after any sequence of pass-1 process_line calls, the total-amount
and subtotal fields of the current accumulator are each unset or strictly
positive; a line whose extracted amount parses to 0.00 sets neither field
even when the triggering keywords are present. -/
theorem c10_amount_positivity :
    (∀ rows : List (String × String),
        posOpt (run_lines rows).current.totalAmount
      ∧ posOpt (run_lines rows).current.salesAmount)
  ∧ (run_lines [("￥0.00", "d"), ("金额税率0.00", "d")]).current.totalAmount = none
  ∧ (run_lines [("￥0.00", "d"), ("金额税率0.00", "d")]).current.salesAmount = none := by
  refine ⟨?_, by decide, by decide⟩
  have hstep : ∀ (st : PState) (t s : String),
      posOpt st.current.totalAmount ∧ posOpt st.current.salesAmount →
      posOpt (process_line st t s).current.totalAmount
      ∧ posOpt (process_line st t s).current.salesAmount := by
    intro st t s ⟨h1, h2⟩
    rw [process_line_current]
    by_cases hp : st.current.path = some s
    · rw [if_pos hp]
      exact ⟨apply_line_posOpt_total t h1, apply_line_posOpt_sales t h2⟩
    · rw [if_neg hp]
      exact ⟨apply_line_posOpt_total t posOpt_none, apply_line_posOpt_sales t posOpt_none⟩
  have hfold : ∀ (rows : List (String × String)) (st : PState),
      posOpt st.current.totalAmount ∧ posOpt st.current.salesAmount →
      posOpt (rows.foldl (fun st p => process_line st p.1 p.2) st).current.totalAmount
      ∧ posOpt (rows.foldl (fun st p => process_line st p.1 p.2) st).current.salesAmount := by
    intro rows
    induction rows with
    | nil => intro st h; exact h
    | cons p rest ih =>
      intro st h
      exact ih (process_line st p.1 p.2) (hstep st p.1 p.2 h)
  intro rows
  exact hfold rows initState ⟨posOpt_none, posOpt_none⟩

/-- C5: finalization accepts a record (leaves failed_files untouched) iff the
invoice number is present, the total amount is present and lies strictly
inside (0, 1000000); totals of exactly 0 or exactly 1000000 are rejected. -/
theorem c5_finalize_acceptance :
    (∀ (st : PState) (f : String), st.current.path = some f → f ∉ st.failed_files →
        ((finalize_invoice st).failed_files = st.failed_files ↔
          st.current.invoiceNo.isSome = true ∧
          ∃ a, st.current.totalAmount = some a ∧ 0 < a ∧ a < 1000000))
  ∧ (finalize_invoice boundaryZeroState).failed_files = ["x.pdf"]
  ∧ (finalize_invoice boundaryMillionState).failed_files = ["x.pdf"] := by
  refine ⟨?_, by decide, by decide⟩
  intro st f hpath hnf
  unfold finalize_invoice
  simp only [hpath]
  by_cases hacc : acceptance st.current = true
  · rw [if_pos hacc]
    simp only [true_iff]
    unfold acceptance at hacc
    simp only [Bool.and_eq_true] at hacc
    obtain ⟨⟨hno, hsome⟩, hval⟩ := hacc
    obtain ⟨a, ha⟩ := Option.isSome_iff_exists.1 hsome
    rw [ha] at hval
    simp only [validate_amount, Bool.and_eq_true, decide_eq_true_eq] at hval
    exact ⟨hno, a, ha, hval⟩
  · rw [if_neg hacc, if_neg hnf]
    constructor
    · intro habs
      exact absurd habs (by simp)
    · rintro ⟨h1, a, h2, h3, h4⟩
      exact absurd (by simp [acceptance, validate_amount, h1, h2, h3, h4]) hacc

/-- C5 witness: an accepted concrete record is not recorded as failed. -/
theorem c5_witness :
    (finalize_invoice acceptedState).failed_files = [] := by
  have h := c5_finalize_acceptance.1 acceptedState "ok.pdf" rfl (by decide)
  exact h.mpr ⟨by decide, 113, rfl, by norm_num, by norm_num⟩

/-- C2: recovery returns success iff the freshly built record satisfies the
same acceptance predicate as finalization; on success the old record of the
source is removed from the accepted list, the fresh record appended, and the
source removed from the failed set; on failure both are unchanged. -/
theorem c2_recovery_acceptance : ∀ (st : PState) (f : String) (lines : List String),
    ((second_pass_process st f lines).2 = true ↔
      acceptance (second_pass_process st f lines).1.current = true)
  ∧ ((second_pass_process st f lines).2 = true →
      (second_pass_process st f lines).1.invoices
        = st.invoices.filter (fun inv => decide (inv.path ≠ some f))
            ++ [(second_pass_process st f lines).1.current]
      ∧ (retry_step st f lines).failed_files = st.failed_files.erase f)
  ∧ ((second_pass_process st f lines).2 = false →
      (second_pass_process st f lines).1.invoices = st.invoices
      ∧ (retry_step st f lines).failed_files = st.failed_files) := by
  intro st f lines
  obtain ⟨hpath, hinv, hbuy, htax, htot, hsal, -, -, -, -, -, -,
    hsucc, hfail, hinvT, hinvF⟩ := second_pass_spec st f lines
  refine ⟨?_, fun hT => ⟨hinvT hT, ?_⟩, fun hF => ⟨hinvF hF, ?_⟩⟩
  · rw [hsucc]
    unfold acceptance
    rw [hinv, htot]
    cases hfp : found_pair lines with
    | none => simp [validate_amount]
    | some p =>
      obtain ⟨s, t⟩ := p
      have hval : validate_amount (some t) = true := by
        obtain ⟨r, hr, hfind⟩ := found_pair_some hfp
        have ht := (find_pair_some hfind).2.2
        have hb := mem_amounts_list ht
        simp [validate_amount, hb.1, hb.2]
      simp [hval]
  · unfold retry_step
    simp only [hT, if_true]
    rw [hfail]
  · unfold retry_step
    simp only [hF, if_false]
    exact hfail

/-- C2 witness: a concrete successful recovery satisfies the acceptance
predicate and clears the failed set. -/
theorem c2_witness :
    acceptance (second_pass_process initState "c2.pdf" recLines).1.current = true ∧
    (retry_step initState "c2.pdf" recLines).failed_files = [] := by
  have h := c2_recovery_acceptance initState "c2.pdf" recLines
  refine ⟨h.1.mp (by decide), ?_⟩
  have h2 := (h.2.1 (by decide)).2
  simpa using h2

/-- C8: the record built by a recovery attempt and its success flag do not
depend on the incoming processor state: the per-attempt caches are reset at
the start of every invocation, so repeated recovery on the same lines is
idempotent and earlier recovery calls cannot influence the result. -/
theorem c8_recovery_pure : ∀ (st stB : PState) (f : String) (lines : List String),
    (second_pass_process st f lines).1.current = (second_pass_process stB f lines).1.current
  ∧ (second_pass_process st f lines).2 = (second_pass_process stB f lines).2 := by
  intro st stB f lines
  obtain ⟨p1, i1, b1, t1, tot1, sal1, se1, d1, bt1, stx1, ic1, cc1, suc1, -⟩ :=
    second_pass_spec st f lines
  obtain ⟨p2, i2, b2, t2, tot2, sal2, se2, d2, bt2, stx2, ic2, cc2, suc2, -⟩ :=
    second_pass_spec stB f lines
  refine ⟨Invoice.ext ?_ ?_ ?_ ?_ ?_ ?_ ?_ ?_ ?_ ?_ ?_ ?_, suc1.trans suc2.symm⟩
  · exact p1.trans p2.symm
  · exact b1.trans b2.symm
  · exact bt1.trans bt2.symm
  · exact se1.trans se2.symm
  · exact stx1.trans stx2.symm
  · exact ic1.trans ic2.symm
  · exact i1.trans i2.symm
  · exact cc1.trans cc2.symm
  · exact d1.trans d2.symm
  · exact tot1.trans tot2.symm
  · exact sal1.trans sal2.symm
  · exact t1.trans t2.symm

/-- C1 (amended): with a cached rate r in (0, 1) and the ascending
deduplicated candidate list (all members in (0, 1000000)), the reconciliation
step selects the smallest subtotal s whose rounded total is also a candidate
and stops at the first hit; in recovery only the total field of the record is
set to that total (the subtotal field 销售金额 is not among the retried
fields and stays unset); when no pair exists neither field is set. -/
theorem c1_reconciliation : ∀ (st : PState) (f : String) (lines : List String) (r : ℚ),
    recovery_rate lines = some r →
    (0 < r ∧ r < 1)
  ∧ (∀ x ∈ amounts_list lines, 0 < x ∧ x < 1000000)
  ∧ (∀ s t, find_pair (amounts_list lines) r = some (s, t) →
        s ∈ amounts_list lines ∧ t = round2 (s * (1 + r)) ∧ t ∈ amounts_list lines
      ∧ (∀ x ∈ amounts_list lines, round2 (x * (1 + r)) ∈ amounts_list lines → s ≤ x)
      ∧ (second_pass_process st f lines).1.current.totalAmount = some t
      ∧ (second_pass_process st f lines).1.current.salesAmount = none)
  ∧ ((∀ x ∈ amounts_list lines, round2 (x * (1 + r)) ∉ amounts_list lines) →
        (second_pass_process st f lines).1.current.totalAmount = none
      ∧ (second_pass_process st f lines).1.current.salesAmount = none) := by
  intro st f lines r hr
  obtain ⟨-, -, -, -, htot, hsal, -⟩ := second_pass_spec st f lines
  have hfp : found_pair lines = find_pair (amounts_list lines) r := by
    unfold found_pair
    rw [hr]
  refine ⟨recovery_rate_bounds hr, fun x hx => mem_amounts_list hx, ?_, ?_⟩
  · intro s t hfind
    obtain ⟨hs, hteq, htmem⟩ := find_pair_some hfind
    refine ⟨hs, hteq, htmem, find_pair_min (pairwise_amounts_list lines) hfind, ?_, hsal⟩
    rw [htot, hfp, hfind]
    rfl
  · intro hnone
    refine ⟨?_, hsal⟩
    rw [htot, hfp, find_pair_eq_none hnone]
    rfl

/-- C1 counterexample: on a successful concrete recovery the total field is
set while the subtotal field stays None, refuting the claim that both fields
are set together by the reconciliation mechanism. -/
theorem c1_counterexample :
    (second_pass_process initState "a.pdf" recLines).2 = true
  ∧ (second_pass_process initState "a.pdf" recLines).1.current.totalAmount = some (477/5)
  ∧ (second_pass_process initState "a.pdf" recLines).1.current.salesAmount = none := by
  exact ⟨by decide, by decide, by decide⟩

/-- C1 witness: the amended reconciliation theorem instantiated on concrete
lines with rate 6 percent and candidates 6, 90, 95.40. -/
theorem c1_witness :
    (second_pass_process initState "w.pdf" recLines).1.current.totalAmount = some (477/5)
  ∧ (second_pass_process initState "w.pdf" recLines).1.current.salesAmount = none
  ∧ (90 : ℚ) ∈ amounts_list recLines := by
  have h := c1_reconciliation initState "w.pdf" recLines (6/100) (by decide)
  have h2 := h.2.2.1 90 (477/5) (by decide)
  exact ⟨h2.2.2.2.2.1, h2.2.2.2.2.2, h2.1⟩

/-- C4 counterexample: on a 20-digit line followed by a labelled line, the
code returns the 20-digit match (line-first order) while the cascade-first
order demanded by the claim would return the labelled match. -/
theorem c4_counterexample :
    retry_invoice_number cascadeLines = some "12345678901234567890"
  ∧ retry_invoice_number_cascade_first cascadeLines = some "87654321"
  ∧ retry_invoice_number cascadeLines ≠ retry_invoice_number_cascade_first cascadeLines := by
  exact ⟨by decide, by decide, by decide⟩

/-- C4 (amended): the retry cascade for the invoice number is evaluated
line-first: each line is tested against the whole pattern cascade (pattern 1
then pattern 2, with the length-8 filter) before the next line is considered,
and the first match in that order wins. -/
theorem c4_line_first_order : ∀ lines : List String,
    retry_invoice_number lines = retry_invoice_number_line_first lines := by
  intro lines
  induction lines with
  | nil => rfl
  | cons l ls ih =>
    unfold retry_invoice_number retry_invoice_number_line_first
    rw [List.findSome?_cons]
    cases h : try_inv_line l <;>
      simp [h, ih, retry_invoice_number_line_first]

/-- C6: on the end-to-end scenario rows the record is extracted correctly and
accepted by finalization (failed_files stays empty), yet the returned record
list is empty: the final in-flight record is only validated by
finalize_invoice, never appended to invoices, so the claimed single accepted
output record is missing. -/
theorem c6_end_to_end_missing_record :
    (process_csv endToEndRows).invoices = []
  ∧ (process_csv endToEndRows).failed_files = []
  ∧ (process_csv endToEndRows).current.buyer = some "ABC公司"
  ∧ (process_csv endToEndRows).current.invoiceNo = some "12345678"
  ∧ (process_csv endToEndRows).current.totalAmount = some 113
  ∧ acceptance (process_csv endToEndRows).current = true := by
  exact ⟨by decide, by decide, by decide, by decide, by decide, by decide⟩

/-- C7 counterexample: with records for sources b.pdf and a.pdf (same invoice
number) in that list order, the unique set keeps the b.pdf record — the first
occurrence — not the naturally-smallest source a.pdf claimed by the spec. -/
theorem c7_counterexample :
    (unique_invoices [rec_b, rec_a]).map (fun r => r.path) = [some "b.pdf"]
  ∧ (unique_invoices [rec_b, rec_a]).map (fun r => r.path) ≠ [some "a.pdf"] := by
  exact ⟨by decide, by decide⟩

/-- C7 (amended): among accepted records sharing an invoice number exactly
one is kept in the final unique set: the first record of the valid list in
list order (pandas drop_duplicates keep=first); kept keys are pairwise
distinct; on the concrete example the b.pdf record is kept and the duplicate
report lists both group members. -/
theorem c7_keep_first :
    (∀ (l : List Invoice) (r : Invoice), r ∈ unique_invoices l →
        (valid_invoices l).find? (fun x => decide (x.invoiceNo = r.invoiceNo)) = some r)
  ∧ (∀ l : List Invoice, (unique_invoices l).Pairwise (fun a b => a.invoiceNo ≠ b.invoiceNo))
  ∧ unique_invoices [rec_b, rec_a] = [rec_b]
  ∧ duplicate_invoices [rec_b, rec_a] = [rec_b, rec_a] := by
  refine ⟨?_, ?_, by decide, by decide⟩
  · intro l r hr
    exact (mem_drop_dup_by _ _ _ _ hr).2
  · intro l
    exact pairwise_drop_dup_by _ _ _

/-- C7 witness: the kept record of the concrete duplicate group is the first
valid record with its invoice number. -/
theorem c7_witness :
    (valid_invoices [rec_b, rec_a]).find?
      (fun x => decide (x.invoiceNo = rec_b.invoiceNo)) = some rec_b :=
  c7_keep_first.1 [rec_b, rec_a] rec_b (by decide)

/-- C9 counterexample: the bare line 6 percent contains a percent sign but
not the label 税率, so pass 1 leaves the tax-rate field unset, while the
percent-sign-triggered rule stated by the spec would set it to 0.06. -/
theorem c9_counterexample :
    (apply_line "6%" emptyInvoice).taxRate = none
  ∧ (upd_tax_rate_percent_trigger "6%" emptyInvoice).taxRate = some ((6 : ℚ) / 100)
  ∧ (apply_line "6%" emptyInvoice).taxRate ≠
      (upd_tax_rate_percent_trigger "6%" emptyInvoice).taxRate := by
  exact ⟨by decide, by decide, by decide⟩

/-- C9 witness: the amended trigger theorem instantiated on a concrete
labelled line. -/
theorem c9_witness :
    (apply_line "税率13%" emptyInvoice).taxRate = some ((13 : ℚ) / 100) :=
  (c9_tax_rate_trigger "税率13%" emptyInvoice).2.1 13 (by decide) (by decide) (by decide)

/-- C3 witness: the monotonic-max theorem instantiated on a concrete state
holding 100.00 and a later 50.00 line. -/
theorem c3_witness :
    ∃ w, (process_line (run_lines [("￥100.00", "d")]) "￥50.00" "d").current.totalAmount
        = some w ∧ (100 : ℚ) ≤ w := by
  have h := c3_monotonic_max.1 (run_lines [("￥100.00", "d")]) "￥50.00" "d" 100
    (by decide) (by decide)
  exact ⟨h.choose, h.choose_spec.1, h.choose_spec.2.1⟩

/-- C10 witness: the positivity theorem instantiated on a concrete run. -/
theorem c10_witness :
    (run_lines [("￥100.00", "d")]).current.totalAmount = some 100 ∧ (0 : ℚ) < 100 :=
  ⟨by decide, (c10_amount_positivity.1 [("￥100.00", "d")]).1 100 (by decide)⟩


end

end InvoiceProc

